import Mathlib

/-!
Verification of the USDC paymaster demo (`src/unnamed/part_000`).

The development shallowly embeds the core pipeline of the page component:
`signPermit` (EIP-2612 typed-data permit construction and signing),
the paymaster-data encoding (`encodePacked` over
`['uint8','address','uint256','bytes']`), the smart-account derivation
call sites, the lazy fee-estimation callback, and the lifecycle-event
log emitted by `sendTransaction`.

Machine integers are modelled as `Nat` with explicit bounds where the
width matters; byte strings are `List Nat` of byte values; fallible
external calls are `Except String` values supplied by an environment.
-/

/-- Big-endian byte encoding of `n` into exactly `w` bytes
(the layout `encodePacked` uses for `uintN` and `address` values). -/
def beBytes : Nat → Nat → List Nat
  | 0, _ => []
  | w + 1, n => beBytes w (n / 256) ++ [n % 256]

/-- Big-endian interpretation of a byte list as a natural number. -/
def fromBeBytes (l : List Nat) : Nat :=
  l.foldl (fun acc b => acc * 256 + b) 0

theorem beBytes_length (w n : Nat) : (beBytes w n).length = w := by
  induction w generalizing n with
  | zero => rfl
  | succ w ih => simp [beBytes, ih]

theorem fromBeBytes_append_singleton (l : List Nat) (b : Nat) :
    fromBeBytes (l ++ [b]) = fromBeBytes l * 256 + b := by
  simp [fromBeBytes, List.foldl_append]

theorem fromBeBytes_beBytes (w n : Nat) (h : n < 256 ^ w) :
    fromBeBytes (beBytes w n) = n := by
  induction w generalizing n with
  | zero =>
    simp [beBytes, fromBeBytes]
    omega
  | succ w ih =>
    have h' : n / 256 < 256 ^ w := by
      apply Nat.div_lt_of_lt_mul
      have : 256 ^ (w + 1) = 256 ^ w * 256 := by ring
      omega
    rw [beBytes, fromBeBytes_append_singleton, ih _ h']
    omega

/-- The contract address of the paymaster (configuration constant of the page). -/
def PAYMASTER_V08_ADDRESS : Nat := 0x3BA9A96eE3eFf3A69E2B18886AcF52027EFF8966

/-- The USDC token contract address on Arbitrum Sepolia (configuration constant). -/
def USDC_ADDRESS : Nat := 0x75faf114eafb1BDbe2F0316DF893fd58CE46AA4d

/-- Modelled from viem's `encodePacked` (library function, instantiated in
`sendTransaction` at the type list `['uint8','address','uint256','bytes']`):
the packed concatenation of a 1-byte mode, a 20-byte address, a 32-byte
big-endian amount, and the raw signature bytes. -/
def encodePackedPayload (mode tokenAddress amount : Nat) (signature : List Nat) : List Nat :=
  beBytes 1 mode ++ beBytes 20 tokenAddress ++ beBytes 32 amount ++ signature

/-- The `paymasterData` built by `sendTransaction`:
`encodePacked(['uint8','address','uint256','bytes'], [0, USDC_ADDRESS, permitAmount, permitSignature])`. -/
def paymasterData (permitAmount : Nat) (permitSignature : List Nat) : List Nat :=
  encodePackedPayload 0 USDC_ADDRESS permitAmount permitSignature

/-- Mode selector of an encoded payload: byte 0. -/
def decodeMode (p : List Nat) : Nat := fromBeBytes (p.take 1)

/-- Token address of an encoded payload: bytes 1..20. -/
def decodeToken (p : List Nat) : Nat := fromBeBytes ((p.drop 1).take 20)

/-- Permit amount of an encoded payload: bytes 21..52. -/
def decodeAmount (p : List Nat) : Nat := fromBeBytes ((p.drop 21).take 32)

/-- Signature bytes of an encoded payload: everything after byte 52. -/
def decodeSig (p : List Nat) : List Nat := p.drop 53

theorem encodePackedPayload_assoc (mode tokenAddress amount : Nat) (signature : List Nat) :
    encodePackedPayload mode tokenAddress amount signature =
      beBytes 1 mode ++ (beBytes 20 tokenAddress ++ (beBytes 32 amount ++ signature)) := by
  rw [encodePackedPayload, List.append_assoc, List.append_assoc]

theorem encodePackedPayload_take_drop (mode tokenAddress amount : Nat) (signature : List Nat) :
    (encodePackedPayload mode tokenAddress amount signature).take 1 = beBytes 1 mode ∧
    ((encodePackedPayload mode tokenAddress amount signature).drop 1).take 20 =
      beBytes 20 tokenAddress ∧
    ((encodePackedPayload mode tokenAddress amount signature).drop 21).take 32 =
      beBytes 32 amount ∧
    (encodePackedPayload mode tokenAddress amount signature).drop 53 = signature := by
  have h1 : (beBytes 1 mode).length = 1 := beBytes_length 1 mode
  have h20 : (beBytes 20 tokenAddress).length = 20 := beBytes_length 20 tokenAddress
  have h32 : (beBytes 32 amount).length = 32 := beBytes_length 32 amount
  have d1 : (encodePackedPayload mode tokenAddress amount signature).drop 1 =
      beBytes 20 tokenAddress ++ (beBytes 32 amount ++ signature) := by
    rw [encodePackedPayload_assoc]
    exact List.drop_left' h1
  have d21 : (encodePackedPayload mode tokenAddress amount signature).drop 21 =
      beBytes 32 amount ++ signature := by
    have h : ((encodePackedPayload mode tokenAddress amount signature).drop 1).drop 20 =
        beBytes 32 amount ++ signature := by
      rw [d1]
      exact List.drop_left' h20
    rw [List.drop_drop] at h
    simpa using h
  have d53 : (encodePackedPayload mode tokenAddress amount signature).drop 53 = signature := by
    have h : ((encodePackedPayload mode tokenAddress amount signature).drop 21).drop 32 =
        signature := by
      rw [d21]
      exact List.drop_left' h32
    rw [List.drop_drop] at h
    simpa using h
  refine ⟨?_, ?_, ?_, d53⟩
  · rw [encodePackedPayload_assoc]
    exact List.take_left' h1
  · rw [d1]
    exact List.take_left' h20
  · rw [d21]
    exact List.take_left' h32

theorem decode_encodePackedPayload
    (mode tokenAddress amount : Nat) (signature : List Nat)
    (hm : mode < 256) (ht : tokenAddress < 256 ^ 20) (ha : amount < 256 ^ 32) :
    decodeMode (encodePackedPayload mode tokenAddress amount signature) = mode ∧
    decodeToken (encodePackedPayload mode tokenAddress amount signature) = tokenAddress ∧
    decodeAmount (encodePackedPayload mode tokenAddress amount signature) = amount ∧
    decodeSig (encodePackedPayload mode tokenAddress amount signature) = signature := by
  obtain ⟨h1, h2, h3, h4⟩ := encodePackedPayload_take_drop mode tokenAddress amount signature
  refine ⟨?_, ?_, ?_, h4⟩
  · rw [decodeMode, h1, fromBeBytes_beBytes 1 mode (by simpa using hm)]
  · rw [decodeToken, h2, fromBeBytes_beBytes 20 tokenAddress ht]
  · rw [decodeAmount, h3, fromBeBytes_beBytes 32 amount ha]

/-- C2: the paymaster payload encoder concatenates the 1-byte mode, the
20-byte token address, the 32-byte big-endian amount, and the raw
signature bytes in that order with no length prefix on the signature, so
the payload length is exactly 1 + 20 + 32 + signatureLength. -/
theorem paymaster_payload_layout (mode tokenAddress amount : Nat) (signature : List Nat) :
    encodePackedPayload mode tokenAddress amount signature =
      beBytes 1 mode ++ beBytes 20 tokenAddress ++ beBytes 32 amount ++ signature ∧
    (beBytes 1 mode).length = 1 ∧
    (beBytes 20 tokenAddress).length = 20 ∧
    (beBytes 32 amount).length = 32 ∧
    (encodePackedPayload mode tokenAddress amount signature).drop 53 = signature ∧
    (encodePackedPayload mode tokenAddress amount signature).length =
      1 + 20 + 32 + signature.length := by
  refine ⟨by rw [encodePackedPayload], beBytes_length 1 mode, beBytes_length 20 tokenAddress,
    beBytes_length 32 amount,
    (encodePackedPayload_take_drop mode tokenAddress amount signature).2.2.2, ?_⟩
  rw [encodePackedPayload_assoc]
  simp [beBytes_length]
  omega

theorem pow256_20 : (256 : Nat) ^ 20 = 2 ^ 160 := by
  norm_num

theorem pow256_32 : (256 : Nat) ^ 32 = 2 ^ 256 := by
  norm_num

/-- C3: for a fixed signature length the paymaster payload encoding is
injective on the triple of mode, token address and amount (indeed on the
signature as well), and decoding the fixed-prefix fields (mode at byte 0,
address at bytes 1..20, amount at bytes 21..52) of an encoded payload
recovers exactly the encoded inputs. -/
theorem paymaster_payload_injective_roundtrip
    (mode tokenAddress amount : Nat) (signature : List Nat)
    (mode' tokenAddress' amount' : Nat) (signature' : List Nat)
    (hm : mode < 256) (ht : tokenAddress < 2 ^ 160) (ha : amount < 2 ^ 256)
    (hm' : mode' < 256) (ht' : tokenAddress' < 2 ^ 160) (ha' : amount' < 2 ^ 256)
    (hlen : signature.length = signature'.length) :
    decodeMode (encodePackedPayload mode tokenAddress amount signature) = mode ∧
    decodeToken (encodePackedPayload mode tokenAddress amount signature) = tokenAddress ∧
    decodeAmount (encodePackedPayload mode tokenAddress amount signature) = amount ∧
    (encodePackedPayload mode tokenAddress amount signature =
        encodePackedPayload mode' tokenAddress' amount' signature' ↔
      (mode = mode' ∧ tokenAddress = tokenAddress' ∧ amount = amount' ∧
        signature = signature')) := by
  have ht20 : tokenAddress < 256 ^ 20 := by rw [pow256_20]; exact ht
  have ha32 : amount < 256 ^ 32 := by rw [pow256_32]; exact ha
  have ht20' : tokenAddress' < 256 ^ 20 := by rw [pow256_20]; exact ht'
  have ha32' : amount' < 256 ^ 32 := by rw [pow256_32]; exact ha'
  obtain ⟨e1, e2, e3, e4⟩ :=
    decode_encodePackedPayload mode tokenAddress amount signature hm ht20 ha32
  obtain ⟨f1, f2, f3, f4⟩ :=
    decode_encodePackedPayload mode' tokenAddress' amount' signature' hm' ht20' ha32'
  refine ⟨e1, e2, e3, ?_, ?_⟩
  · intro h
    have hmode := congrArg decodeMode h
    have htok := congrArg decodeToken h
    have hamt := congrArg decodeAmount h
    have hsig := congrArg decodeSig h
    rw [e1, f1] at hmode
    rw [e2, f2] at htok
    rw [e3, f3] at hamt
    rw [show decodeSig (encodePackedPayload mode tokenAddress amount signature) = signature
        from e4,
      show decodeSig (encodePackedPayload mode' tokenAddress' amount' signature') = signature'
        from f4] at hsig
    exact ⟨hmode, htok, hamt, hsig⟩
  · rintro ⟨rfl, rfl, rfl, rfl⟩
    rfl

/-- Witness for C3 at concrete inputs. -/
theorem paymaster_payload_injective_roundtrip_witness :
    ((0 : Nat) < 256 ∧ USDC_ADDRESS < 2 ^ 160 ∧ (10000000 : Nat) < 2 ^ 256 ∧
      (1 : Nat) < 256 ∧ PAYMASTER_V08_ADDRESS < 2 ^ 160 ∧ (5 : Nat) < 2 ^ 256 ∧
      ([9, 9] : List Nat).length = ([7, 7] : List Nat).length) ∧
    decodeMode (encodePackedPayload 0 USDC_ADDRESS 10000000 [9, 9]) = 0 ∧
    decodeToken (encodePackedPayload 0 USDC_ADDRESS 10000000 [9, 9]) = USDC_ADDRESS ∧
    decodeAmount (encodePackedPayload 0 USDC_ADDRESS 10000000 [9, 9]) = 10000000 ∧
    (encodePackedPayload 0 USDC_ADDRESS 10000000 [9, 9] =
        encodePackedPayload 1 PAYMASTER_V08_ADDRESS 5 [7, 7] ↔
      ((0 : Nat) = 1 ∧ USDC_ADDRESS = PAYMASTER_V08_ADDRESS ∧ (10000000 : Nat) = 5 ∧
        ([9, 9] : List Nat) = [7, 7])) := by
  have h1 : (0 : Nat) < 256 := by norm_num
  have h2 : USDC_ADDRESS < 2 ^ 160 := by norm_num [USDC_ADDRESS]
  have h3 : (10000000 : Nat) < 2 ^ 256 := by norm_num
  have h4 : (1 : Nat) < 256 := by norm_num
  have h5 : PAYMASTER_V08_ADDRESS < 2 ^ 160 := by norm_num [PAYMASTER_V08_ADDRESS]
  have h6 : (5 : Nat) < 2 ^ 256 := by norm_num
  have h7 : ([9, 9] : List Nat).length = ([7, 7] : List Nat).length := rfl
  exact ⟨⟨h1, h2, h3, h4, h5, h6, h7⟩,
    paymaster_payload_injective_roundtrip 0 USDC_ADDRESS 10000000 [9, 9]
      1 PAYMASTER_V08_ADDRESS 5 [7, 7] h1 h2 h3 h4 h5 h6 h7⟩

/-- `maxUint256` from viem: the largest unsigned 256-bit integer. -/
def maxUint256 : Nat := 2 ^ 256 - 1

/-- Read-only view of the EIP-2612 token contract used by `signPermit`:
`name()`, `version()` and `nonces(owner)` as queried through the public
client (the chain-read capability). -/
structure TokenEnv where
  name : String
  version : String
  nonces : Nat → Nat

/-- The account object handed to `signPermit`. In the source this is the
MetaMask smart account returned by `toMetaMaskSmartAccount`;
`supportsTypedData` records whether its `signTypedData` method can
produce a direct EIP-712 typed-data signature (for the delegation-toolkit
smart-account wrapper it cannot). -/
structure Account where
  address : Nat
  supportsTypedData : Bool
deriving DecidableEq

/-- Failure raised by the signing capability. -/
inductive SignError
  | SigningUnsupported
deriving DecidableEq, Repr

/-- EIP-712 domain built by `signPermit`. -/
structure TypedDomain where
  name : String
  version : String
  chainId : Nat
  verifyingContract : Nat
deriving DecidableEq

/-- EIP-2612 permit message built by `signPermit`. -/
structure PermitMessage where
  owner : Nat
  spender : Nat
  value : Nat
  nonce : Nat
  deadline : Nat
deriving DecidableEq

/-- The typed-data request passed to `account.signTypedData`. -/
structure TypedDataRequest where
  primaryType : String
  domain : TypedDomain
  types : List (String × List (String × String))
  message : PermitMessage
deriving DecidableEq

/-- The `types` record of the request: `EIP712Domain` and `Permit` field lists. -/
def permitTypes : List (String × List (String × String)) :=
  [("EIP712Domain",
    [("name", "string"), ("version", "string"), ("chainId", "uint256"),
     ("verifyingContract", "address")]),
   ("Permit",
    [("owner", "address"), ("spender", "address"), ("value", "uint256"),
     ("nonce", "uint256"), ("deadline", "uint256")])]

/-- Modelled from the spec: `signTypedData` of the smart-account wrapper
(external library code, not under `src/`). Per the spec, a signer that
only supports delegated/account-level signing cannot produce a direct
EIP-712 typed-data signature and must fail loudly; `sign` is the
underlying raw-key signing capability used when direct signing is
supported. -/
def Account.signTypedData (account : Account) (sign : TypedDataRequest → List Nat)
    (request : TypedDataRequest) : Except SignError (List Nat) :=
  if account.supportsTypedData then Except.ok (sign request) else Except.error .SigningUnsupported

/-- The typed-data request `signPermit` constructs: domain from the
token's `name()`/`version()` reads, the client's chain id and the token
address as verifying contract; message from the account address, the
spender, the permit amount, the owner's current `nonces(owner)` read and
the `maxUint256` deadline. -/
def signPermitRequest (token : TokenEnv) (chainId : Nat) (tokenAddress : Nat)
    (account : Account) (spenderAddress : Nat) (permitAmount : Nat) : TypedDataRequest :=
  { primaryType := "Permit"
    domain :=
      { name := token.name
        version := token.version
        chainId := chainId
        verifyingContract := tokenAddress }
    types := permitTypes
    message :=
      { owner := account.address
        spender := spenderAddress
        value := permitAmount
        nonce := token.nonces account.address
        deadline := maxUint256 } }

/-- `signPermit` from the source: builds the EIP-712 domain, message and
types and asks the account object to sign the typed data. -/
def signPermit (token : TokenEnv) (chainId : Nat) (tokenAddress : Nat)
    (account : Account) (spenderAddress : Nat) (permitAmount : Nat)
    (sign : TypedDataRequest → List Nat) : Except SignError (List Nat) :=
  account.signTypedData sign
    (signPermitRequest token chainId tokenAddress account spenderAddress permitAmount)

/-- C1: when the account object only supports delegated/account-level
signing (no direct typed-data signing), `signPermit` raises
`SigningUnsupported` and never returns a signature. -/
theorem signPermit_delegated_raises_SigningUnsupported
    (token : TokenEnv) (chainId tokenAddress : Nat) (account : Account)
    (spenderAddress permitAmount : Nat) (sign : TypedDataRequest → List Nat)
    (h : account.supportsTypedData = false) :
    signPermit token chainId tokenAddress account spenderAddress permitAmount sign =
      Except.error SignError.SigningUnsupported := by
  simp [signPermit, Account.signTypedData, h]

/-- Token environment used for concrete witnesses: the USDC view. -/
def tokenEnvUSDC : TokenEnv :=
  { name := "USD Coin", version := "2", nonces := fun _ => 0 }

/-- Witness for C1: a concrete smart-account wrapper without direct
typed-data signing makes `signPermit` fail with `SigningUnsupported`. -/
theorem signPermit_delegated_raises_SigningUnsupported_witness :
    (Account.mk 0xbd1fC64F72717958c4ccbC41c417EFb7af0FEe20 false).supportsTypedData = false ∧
    signPermit tokenEnvUSDC 421614 USDC_ADDRESS
        (Account.mk 0xbd1fC64F72717958c4ccbC41c417EFb7af0FEe20 false)
        PAYMASTER_V08_ADDRESS 10000000 (fun _ => [1]) =
      Except.error SignError.SigningUnsupported :=
  ⟨rfl,
    signPermit_delegated_raises_SigningUnsupported tokenEnvUSDC 421614 USDC_ADDRESS
      (Account.mk 0xbd1fC64F72717958c4ccbC41c417EFb7af0FEe20 false)
      PAYMASTER_V08_ADDRESS 10000000 (fun _ => [1]) rfl⟩

/-- C4: the typed data signed by `signPermit` has exactly the domain
{token name, token version read on demand, chain id, token address as
verifying contract} and exactly the message {owner, spender, value,
owner's current on-chain permit nonce read at signing time, deadline}. -/
theorem signPermit_typedData_fields (token : TokenEnv) (chainId tokenAddress : Nat)
    (account : Account) (spenderAddress permitAmount : Nat) :
    (signPermitRequest token chainId tokenAddress account spenderAddress
        permitAmount).domain =
      { name := token.name, version := token.version, chainId := chainId,
        verifyingContract := tokenAddress } ∧
    (signPermitRequest token chainId tokenAddress account spenderAddress
        permitAmount).message =
      { owner := account.address, spender := spenderAddress, value := permitAmount,
        nonce := token.nonces account.address, deadline := maxUint256 } ∧
    (signPermitRequest token chainId tokenAddress account spenderAddress
        permitAmount).primaryType = "Permit" ∧
    (∀ sign : TypedDataRequest → List Nat,
      signPermit token chainId tokenAddress account spenderAddress permitAmount sign =
        account.signTypedData sign
          (signPermitRequest token chainId tokenAddress account spenderAddress permitAmount)) :=
  ⟨rfl, rfl, rfl, fun _ => rfl⟩

/-- C10: every permit message produced by `signPermit` has deadline
`maxUint256`, the largest unsigned 256-bit value; no invocation yields a
finite deadline. -/
theorem signPermit_deadline_maxUint256 (token : TokenEnv) (chainId tokenAddress : Nat)
    (account : Account) (spenderAddress permitAmount : Nat) :
    (signPermitRequest token chainId tokenAddress account spenderAddress
        permitAmount).message.deadline = maxUint256 ∧
    maxUint256 = 2 ^ 256 - 1 :=
  ⟨rfl, rfl⟩

/-- The implementation variant passed to `toMetaMaskSmartAccount`
(both call sites use `Implementation.Hybrid`). -/
inductive Implementation
  | Hybrid
deriving DecidableEq, Repr

/-- The deterministic inputs of smart-account derivation: implementation
variant, `deployParams` (the owner address and three empty lists) and
`deploySalt`. -/
structure DeployConfig where
  implementation : Implementation
  deployParams : Nat × List Nat × List Nat × List Nat
  deploySalt : String
deriving DecidableEq

/-- Modelled from the spec: the address computed by
`toMetaMaskSmartAccount` (external library code, not under `src/`).
Per the spec the address is a pure function of owner + deployment
parameters + salt, so it is modelled as an arbitrary function `derive`
of the `DeployConfig`. -/
def resolveSmartAccountAddress (derive : DeployConfig → Nat) (config : DeployConfig) : Nat :=
  derive config

/-- The derivation inputs used by `setupAccount`:
`Implementation.Hybrid`, `deployParams [owner, [], [], []]`, `deploySalt "0x"`. -/
def setupAccountDeployConfig (owner : Nat) : DeployConfig :=
  { implementation := Implementation.Hybrid
    deployParams := (owner, [], [], [])
    deploySalt := "0x" }

/-- The derivation inputs used by `sendTransaction`:
`Implementation.Hybrid`, `deployParams [owner, [], [], []]`, `deploySalt "0x"`. -/
def sendTransactionDeployConfig (owner : Nat) : DeployConfig :=
  { implementation := Implementation.Hybrid
    deployParams := (owner, [], [], [])
    deploySalt := "0x" }

/-- C5: smart-account derivation is deterministic in its inputs, and the
two independent resolutions performed by `setupAccount` and by
`sendTransaction` use identical inputs (owner, `Implementation.Hybrid`,
`deployParams [owner, [], [], []]`, `deploySalt "0x"`), hence produce the
identical address for every derivation function and every owner. -/
theorem smartAccount_resolution_idempotent (derive : DeployConfig → Nat) (owner : Nat) :
    setupAccountDeployConfig owner = sendTransactionDeployConfig owner ∧
    resolveSmartAccountAddress derive (setupAccountDeployConfig owner) =
      resolveSmartAccountAddress derive (sendTransactionDeployConfig owner) ∧
    (∀ config : DeployConfig,
      resolveSmartAccountAddress derive config = resolveSmartAccountAddress derive config) :=
  ⟨rfl, rfl, fun _ => rfl⟩

/-- Hex quantities returned by the Pimlico gas-price oracle
(`pimlico_getUserOperationGasPrice`, `standard` tier). -/
structure GasPriceHex where
  maxFeePerGas : String
  maxPriorityFeePerGas : String
deriving DecidableEq

/-- The fee estimate returned by the `estimateFeesPerGas` callback. -/
structure FeeEstimate where
  maxFeePerGas : Nat
  maxPriorityFeePerGas : Nat
deriving DecidableEq

/-- Value of one hex digit character. -/
def hexDigitToNat (c : Char) : Nat :=
  if 48 ≤ c.toNat ∧ c.toNat ≤ 57 then c.toNat - 48
  else if 97 ≤ c.toNat ∧ c.toNat ≤ 102 then c.toNat - 87
  else if 65 ≤ c.toNat ∧ c.toNat ≤ 70 then c.toNat - 55
  else 0

/-- Modelled from viem's `hexToBigInt` (library function): interpret a
`0x`-prefixed hex quantity string as a natural number. -/
def hexToBigInt (s : String) : Nat :=
  ((s.drop 2).toList).foldl (fun acc c => acc * 16 + hexDigitToNat c) 0

/-- The `estimateFeesPerGas` callback installed on the bundler client:
queries the bundler-side gas-price oracle
(`pimlico_getUserOperationGasPrice`) and converts the `standard` tier's
two hex quantities; the oracle response (or its failure) is the
`request` argument, and no fallback fee is computed on failure. -/
def estimateFeesPerGas (request : Except String GasPriceHex) : Except String FeeEstimate :=
  match request with
  | Except.error e => Except.error e
  | Except.ok fees =>
    Except.ok
      { maxFeePerGas := hexToBigInt fees.maxFeePerGas
        maxPriorityFeePerGas := hexToBigInt fees.maxPriorityFeePerGas }

/-- Value of a decimal digit string. -/
def decDigitsVal (s : List Char) : Nat :=
  s.foldl (fun acc c => acc * 10 + (c.toNat - 48)) 0

/-- Modelled from viem's `parseUnits` (library function) restricted to the
non-negative decimal strings the amount input produces: scale the decimal
string by `10 ^ decimals`, padding a short fraction with zeros and
rounding half-up on the first digit beyond `decimals`. -/
def parseUnits (value : String) (decimals : Nat) : Nat :=
  let parts := value.splitOn "."
  let integer := (parts.headD "").toList
  let fraction := ((parts.drop 1).headD "0").toList
  if fraction.length ≤ decimals then
    decDigitsVal integer * 10 ^ decimals + decDigitsVal fraction * 10 ^ (decimals - fraction.length)
  else
    let kept := fraction.take decimals
    let rest := fraction.drop decimals
    let roundUp :=
      match rest with
      | [] => 0
      | c :: _ => if 53 ≤ c.toNat then 1 else 0
    decDigitsVal integer * 10 ^ decimals + decDigitsVal kept + roundUp

/-- The constant `permitAmount = 10_000_000n` declared in `sendTransaction`. -/
def permitAmount : Nat := 10000000

/-- One call of the user operation's call batch (`callTo` is the `to`
field of the source object; `to` is reserved in Lean). -/
structure Call where
  callTo : Nat
  functionName : String
  args : Nat × Nat
deriving DecidableEq

/-- The submittable pieces `sendTransaction` assembles for the bundler:
the call batch and the paymaster data. -/
structure UserOpRecord where
  calls : List Call
  paymasterData : List Nat
deriving DecidableEq

/-- Assembly of the user operation in `sendTransaction`: a single USDC
`transfer(recipient, parseUnits(amount, 6))` call plus the paymaster
payload packing the constant permit amount and the permit signature. -/
def assembleUserOp (recipient : Nat) (amount : String) (permitSignature : List Nat) :
    UserOpRecord :=
  { calls :=
      [{ callTo := USDC_ADDRESS
         functionName := "transfer"
         args := (recipient, parseUnits amount 6) }]
    paymasterData := paymasterData permitAmount permitSignature }

/-- The named lifecycle events of the pipeline, one per stage log entry
of the source (`connecting` from `connectWallet`; the others from the
stage logs of `sendTransaction`, with `estimatingFees` emitted by the
`estimateFeesPerGas` callback while the bundler processes the
submission). -/
inductive LifecycleEvent
  | connecting
  | resolvingAccount
  | signingPermit
  | encodingPayload
  | estimatingFees
  | submitting
  | awaitingConfirmation
  | confirmed
  | failed
deriving DecidableEq, Repr

/-- Caller-visible outcome of one `sendTransaction` attempt: the terminal
status message (success with the transaction hash, or the failure message
of the caught error). -/
inductive Outcome
  | success (txHash : Nat)
  | failure (errorMsg : String)
deriving DecidableEq, Repr

/-- The message of the error thrown by the smart account's
`signTypedData` (the viem error reported in the repository's issue). -/
def signErrorMessage : SignError → String
  | SignError.SigningUnsupported =>
    "Could not find an Account to execute with this Action."

/-- Environment of one `sendTransaction` attempt: the token read
capability, chain id, the result of smart-account resolution, the raw
signing capability, the gas-price oracle response, the bundler submission
response and the receipt wait response. Each `Except` value is the
outcome the corresponding external call would produce in this attempt. -/
structure PipelineEnv where
  tokenEnv : TokenEnv
  chainId : Nat
  resolveAccount : Except String Account
  sign : TypedDataRequest → List Nat
  feeOracle : Except String GasPriceHex
  submit : UserOpRecord → Except String Nat
  waitReceipt : Nat → Except String Nat

/-- One run of `sendTransaction`: the ordered list of lifecycle events
appended to the (cleared) log, and the terminal outcome. Mirrors the
source control flow: resolve the smart account, sign the permit with the
constant `permitAmount`, encode the paymaster payload, submit to the
bundler (during which the fee callback queries the oracle), then await
the receipt; the single catch-all turns any raised error into a `failed`
event and a failure status. -/
def sendTransactionRun (env : PipelineEnv) (recipient : Nat) (amount : String) :
    List LifecycleEvent × Outcome :=
  match env.resolveAccount with
  | Except.error e => ([.resolvingAccount, .failed], Outcome.failure e)
  | Except.ok account =>
    match signPermit env.tokenEnv env.chainId USDC_ADDRESS account PAYMASTER_V08_ADDRESS
        permitAmount env.sign with
    | Except.error e =>
      ([.resolvingAccount, .signingPermit, .failed], Outcome.failure (signErrorMessage e))
    | Except.ok permitSignature =>
      let op := assembleUserOp recipient amount permitSignature
      match estimateFeesPerGas env.feeOracle with
      | Except.error e =>
        ([.resolvingAccount, .signingPermit, .encodingPayload, .submitting, .estimatingFees,
          .failed], Outcome.failure e)
      | Except.ok _fees =>
        match env.submit op with
        | Except.error e =>
          ([.resolvingAccount, .signingPermit, .encodingPayload, .submitting, .estimatingFees,
            .failed], Outcome.failure e)
        | Except.ok uoHash =>
          match env.waitReceipt uoHash with
          | Except.error e =>
            ([.resolvingAccount, .signingPermit, .encodingPayload, .submitting,
              .estimatingFees, .awaitingConfirmation, .failed], Outcome.failure e)
          | Except.ok txHash =>
            ([.resolvingAccount, .signingPermit, .encodingPayload, .submitting,
              .estimatingFees, .awaitingConfirmation, .confirmed], Outcome.success txHash)

/-- The external components whose failure can abort an attempt. -/
inductive Component
  | resolve
  | signing
  | feeOracle
  | bundlerSubmit
  | receiptWait
deriving DecidableEq, Repr

/-- The first failing component of an attempt together with the error
message the caller sees, or `none` when every component succeeds. -/
def failsAt (env : PipelineEnv) (recipient : Nat) (amount : String) :
    Option (Component × String) :=
  match env.resolveAccount with
  | Except.error e => some (Component.resolve, e)
  | Except.ok account =>
    match signPermit env.tokenEnv env.chainId USDC_ADDRESS account PAYMASTER_V08_ADDRESS
        permitAmount env.sign with
    | Except.error e => some (Component.signing, signErrorMessage e)
    | Except.ok permitSignature =>
      match env.feeOracle with
      | Except.error e => some (Component.feeOracle, e)
      | Except.ok _ =>
        match env.submit (assembleUserOp recipient amount permitSignature) with
        | Except.error e => some (Component.bundlerSubmit, e)
        | Except.ok uoHash =>
          match env.waitReceipt uoHash with
          | Except.error e => some (Component.receiptWait, e)
          | Except.ok _ => none

/-- The lifecycle events a run emits when the given component fails. -/
def failTrace : Component → List LifecycleEvent
  | Component.resolve => [.resolvingAccount, .failed]
  | Component.signing => [.resolvingAccount, .signingPermit, .failed]
  | Component.feeOracle =>
    [.resolvingAccount, .signingPermit, .encodingPayload, .submitting, .estimatingFees, .failed]
  | Component.bundlerSubmit =>
    [.resolvingAccount, .signingPermit, .encodingPayload, .submitting, .estimatingFees, .failed]
  | Component.receiptWait =>
    [.resolvingAccount, .signingPermit, .encodingPayload, .submitting, .estimatingFees,
     .awaitingConfirmation, .failed]

/-- The lifecycle events a fully successful run emits, in order. -/
def successTrace : List LifecycleEvent :=
  [.resolvingAccount, .signingPermit, .encodingPayload, .submitting, .estimatingFees,
   .awaitingConfirmation, .confirmed]

/-- The events emitted by `connectWallet` (the separate wallet-connection
step, outside `sendTransaction`). -/
def connectWalletEvents : List LifecycleEvent := [.connecting]

theorem sendTransactionRun_eq_of_failsAt (env : PipelineEnv) (recipient : Nat)
    (amount : String) (c : Component) (e : String)
    (h : failsAt env recipient amount = some (c, e)) :
    sendTransactionRun env recipient amount = (failTrace c, Outcome.failure e) := by
  unfold failsAt at h
  unfold sendTransactionRun
  split at h
  next e1 hres =>
    simp only [Option.some.injEq, Prod.mk.injEq] at h
    obtain ⟨rfl, rfl⟩ := h
    simp [hres, failTrace]
  next account hres =>
    split at h
    next e2 hsig =>
      simp only [Option.some.injEq, Prod.mk.injEq] at h
      obtain ⟨rfl, rfl⟩ := h
      simp [hres, hsig, failTrace]
    next permitSignature hsig =>
      split at h
      next e3 hfee =>
        simp only [Option.some.injEq, Prod.mk.injEq] at h
        obtain ⟨rfl, rfl⟩ := h
        simp [hres, hsig, hfee, estimateFeesPerGas, failTrace]
      next gasPrice hfee =>
        split at h
        next e4 hsub =>
          simp only [Option.some.injEq, Prod.mk.injEq] at h
          obtain ⟨rfl, rfl⟩ := h
          simp [hres, hsig, hfee, estimateFeesPerGas, hsub, failTrace]
        next uoHash hsub =>
          split at h
          next e5 hwait =>
            simp only [Option.some.injEq, Prod.mk.injEq] at h
            obtain ⟨rfl, rfl⟩ := h
            simp [hres, hsig, hfee, estimateFeesPerGas, hsub, hwait, failTrace]
          next txHash hwait =>
            simp at h

theorem sendTransactionRun_eq_of_success (env : PipelineEnv) (recipient : Nat)
    (amount : String) (h : failsAt env recipient amount = none) :
    ∃ txHash : Nat,
      sendTransactionRun env recipient amount = (successTrace, Outcome.success txHash) := by
  unfold failsAt at h
  unfold sendTransactionRun
  split at h
  next e1 hres => simp at h
  next account hres =>
    split at h
    next e2 hsig => simp at h
    next permitSignature hsig =>
      split at h
      next e3 hfee => simp at h
      next gasPrice hfee =>
        split at h
        next e4 hsub => simp at h
        next uoHash hsub =>
          split at h
          next e5 hwait => simp at h
          next txHash hwait =>
            refine ⟨txHash, ?_⟩
            simp [hres, hsig, hfee, estimateFeesPerGas, hsub, hwait, successTrace]

/-- Concrete account used by the witness environments: the smart account
address from the repository's issue report, with direct typed-data
signing available. -/
def accountOk : Account :=
  { address := 0xbd1fC64F72717958c4ccbC41c417EFb7af0FEe20, supportsTypedData := true }

/-- Concrete gas-price oracle response used by the witness environments. -/
def gasPriceStandard : GasPriceHex :=
  { maxFeePerGas := "0x77359400", maxPriorityFeePerGas := "0x3b9aca00" }

/-- A pipeline environment in which every external call succeeds. -/
def envAllOk : PipelineEnv :=
  { tokenEnv := tokenEnvUSDC
    chainId := 421614
    resolveAccount := Except.ok accountOk
    sign := fun _ => [1]
    feeOracle := Except.ok gasPriceStandard
    submit := fun _ => Except.ok 0xa1
    waitReceipt := fun _ => Except.ok 0xb2 }

/-- `envAllOk` with a failing gas-price oracle query. -/
def envFeeFail : PipelineEnv :=
  { envAllOk with feeOracle := Except.error "HTTP request failed." }

/-- `envAllOk` with a failing bundler submission. -/
def envSubmitFail : PipelineEnv :=
  { envAllOk with submit := fun _ => Except.error "HTTP request failed." }

/-- `envAllOk` with a failing smart-account resolution. -/
def envResolveFail : PipelineEnv :=
  { envAllOk with resolveAccount := Except.error "Account setup failed" }

/-- The recipient address prefilled by the page. -/
def defaultRecipient : Nat := 0x5732e1bccaeb161e3b93d126010042b0f1b9cfc9

theorem failsAt_feeOracle_eq (env : PipelineEnv) (recipient : Nat) (amount : String)
    (e : String) (h : failsAt env recipient amount = some (Component.feeOracle, e)) :
    env.feeOracle = Except.error e := by
  unfold failsAt at h
  split at h
  next e1 hres => simp at h
  next account hres =>
    split at h
    next e2 hsig => simp at h
    next permitSignature hsig =>
      split at h
      next e3 hfee =>
        simp only [Option.some.injEq, Prod.mk.injEq, true_and] at h
        subst h
        exact hfee
      next gasPrice hfee =>
        split at h
        next e4 hsub => simp at h
        next uoHash hsub =>
          split at h
          next e5 hwait => simp at h
          next txHash hwait => simp at h

/-- C6: fee estimation is performed lazily at submission time (the
`estimatingFees` event is emitted after the `submitting` event, during
bundler submission); the callback returns exactly the oracle's two hex
quantities converted to integers, and when the oracle query fails no
fallback fee is computed: the callback propagates the error and the whole
attempt fails with it. -/
theorem feeEstimation_lazy_no_fallback (env : PipelineEnv) (recipient : Nat)
    (amount : String) (e : String)
    (h : failsAt env recipient amount = some (Component.feeOracle, e)) :
    env.feeOracle = Except.error e ∧
    estimateFeesPerGas env.feeOracle = Except.error e ∧
    sendTransactionRun env recipient amount =
      (failTrace Component.feeOracle, Outcome.failure e) ∧
    failTrace Component.feeOracle =
      [LifecycleEvent.resolvingAccount, LifecycleEvent.signingPermit,
       LifecycleEvent.encodingPayload, LifecycleEvent.submitting,
       LifecycleEvent.estimatingFees, LifecycleEvent.failed] ∧
    (∀ fees : GasPriceHex,
      estimateFeesPerGas (Except.ok fees) =
        Except.ok
          { maxFeePerGas := hexToBigInt fees.maxFeePerGas
            maxPriorityFeePerGas := hexToBigInt fees.maxPriorityFeePerGas }) := by
  have hfee := failsAt_feeOracle_eq env recipient amount e h
  refine ⟨hfee, ?_, sendTransactionRun_eq_of_failsAt env recipient amount _ _ h, rfl,
    fun fees => rfl⟩
  rw [hfee]
  rfl

/-- Witness for C6: in the environment whose oracle query fails, the
attempt fails with the oracle's error and no substitute fee. -/
theorem feeEstimation_lazy_no_fallback_witness :
    failsAt envFeeFail defaultRecipient "0.1" =
      some (Component.feeOracle, "HTTP request failed.") ∧
    (envFeeFail.feeOracle = Except.error "HTTP request failed." ∧
      estimateFeesPerGas envFeeFail.feeOracle = Except.error "HTTP request failed." ∧
      sendTransactionRun envFeeFail defaultRecipient "0.1" =
        (failTrace Component.feeOracle, Outcome.failure "HTTP request failed.") ∧
      failTrace Component.feeOracle =
        [LifecycleEvent.resolvingAccount, LifecycleEvent.signingPermit,
         LifecycleEvent.encodingPayload, LifecycleEvent.submitting,
         LifecycleEvent.estimatingFees, LifecycleEvent.failed] ∧
      (∀ fees : GasPriceHex,
        estimateFeesPerGas (Except.ok fees) =
          Except.ok
            { maxFeePerGas := hexToBigInt fees.maxFeePerGas
              maxPriorityFeePerGas := hexToBigInt fees.maxPriorityFeePerGas })) :=
  ⟨rfl, feeEstimation_lazy_no_fallback envFeeFail defaultRecipient "0.1"
    "HTTP request failed." rfl⟩

/-- C7 counterexample: on a fully successful concrete run the emitted
lifecycle log contains no `connecting` event (connection happens in the
separate `connectWallet` step and the log is cleared when the run
starts), and the `estimatingFees` event comes after the `submitting`
event (index 4 versus index 3), contradicting the claimed fixed order in
which estimating fees precedes submitting. -/
theorem lifecycle_order_counterexample :
    sendTransactionRun envAllOk defaultRecipient "0.1" =
      ([LifecycleEvent.resolvingAccount, LifecycleEvent.signingPermit,
        LifecycleEvent.encodingPayload, LifecycleEvent.submitting,
        LifecycleEvent.estimatingFees, LifecycleEvent.awaitingConfirmation,
        LifecycleEvent.confirmed], Outcome.success 0xb2) ∧
    (sendTransactionRun envAllOk defaultRecipient "0.1").1.indexOf
        LifecycleEvent.submitting = 3 ∧
    (sendTransactionRun envAllOk defaultRecipient "0.1").1.indexOf
        LifecycleEvent.estimatingFees = 4 ∧
    LifecycleEvent.connecting ∉ (sendTransactionRun envAllOk defaultRecipient "0.1").1 :=
  ⟨rfl, by decide, by decide, by decide⟩

/-- C7 (amended): a run of `sendTransaction` in which every component
succeeds emits exactly one lifecycle event per stage (the trace has no
duplicates), in the fixed order resolving account, signing permit,
encoding payload, submitting, estimating fees, awaiting confirmation,
confirmed; the `connecting` event is emitted by the separate
wallet-connection step, and the estimating-fees event follows the
submitting event because fees are fetched lazily during bundler
submission. -/
theorem lifecycle_order_amended (env : PipelineEnv) (recipient : Nat) (amount : String)
    (h : failsAt env recipient amount = none) :
    (∃ txHash : Nat,
      sendTransactionRun env recipient amount = (successTrace, Outcome.success txHash)) ∧
    successTrace =
      [LifecycleEvent.resolvingAccount, LifecycleEvent.signingPermit,
       LifecycleEvent.encodingPayload, LifecycleEvent.submitting,
       LifecycleEvent.estimatingFees, LifecycleEvent.awaitingConfirmation,
       LifecycleEvent.confirmed] ∧
    successTrace.Nodup ∧
    connectWalletEvents = [LifecycleEvent.connecting] :=
  ⟨sendTransactionRun_eq_of_success env recipient amount h, rfl, by decide, rfl⟩

/-- Witness for the amended C7 on the all-success environment. -/
theorem lifecycle_order_amended_witness :
    failsAt envAllOk defaultRecipient "0.1" = none ∧
    ((∃ txHash : Nat,
        sendTransactionRun envAllOk defaultRecipient "0.1" =
          (successTrace, Outcome.success txHash)) ∧
      successTrace =
        [LifecycleEvent.resolvingAccount, LifecycleEvent.signingPermit,
         LifecycleEvent.encodingPayload, LifecycleEvent.submitting,
         LifecycleEvent.estimatingFees, LifecycleEvent.awaitingConfirmation,
         LifecycleEvent.confirmed] ∧
      successTrace.Nodup ∧
      connectWalletEvents = [LifecycleEvent.connecting]) :=
  ⟨rfl, lifecycle_order_amended envAllOk defaultRecipient "0.1" rfl⟩

/-- C8 counterexample: a fee-oracle failure and a bundler-submission
failure are different failing stages, yet the caller-visible outcome
(the lifecycle log and the terminal failure message) of the two runs is
identical, so the outcome does not name which stage failed. -/
theorem failure_stage_not_named_counterexample :
    failsAt envFeeFail defaultRecipient "0.1" =
      some (Component.feeOracle, "HTTP request failed.") ∧
    failsAt envSubmitFail defaultRecipient "0.1" =
      some (Component.bundlerSubmit, "HTTP request failed.") ∧
    Component.feeOracle ≠ Component.bundlerSubmit ∧
    sendTransactionRun envFeeFail defaultRecipient "0.1" =
      sendTransactionRun envSubmitFail defaultRecipient "0.1" :=
  ⟨rfl, rfl, by decide, rfl⟩

/-- C8 (amended): every component-level failure aborts the attempt
immediately and is surfaced to the caller, never swallowed: the run ends
with the `failed` event, carries the failing component's error message as
the outcome, and emits no later stage events (no `confirmed`); the
failing stage, however, is identifiable from the caller-visible outcome
only up to the emitted stage events, which do not distinguish a
fee-oracle failure from a bundler-submission failure. -/
theorem failure_aborts_and_surfaced (env : PipelineEnv) (recipient : Nat) (amount : String)
    (c : Component) (e : String) (h : failsAt env recipient amount = some (c, e)) :
    sendTransactionRun env recipient amount = (failTrace c, Outcome.failure e) ∧
    (failTrace c).getLast? = some LifecycleEvent.failed ∧
    LifecycleEvent.confirmed ∉ failTrace c ∧
    failTrace Component.feeOracle = failTrace Component.bundlerSubmit := by
  refine ⟨sendTransactionRun_eq_of_failsAt env recipient amount c e h, ?_, ?_, rfl⟩
  · cases c <;> decide
  · cases c <;> decide

/-- Witness for the amended C8 on the environment whose account
resolution fails. -/
theorem failure_aborts_and_surfaced_witness :
    failsAt envResolveFail defaultRecipient "0.1" =
      some (Component.resolve, "Account setup failed") ∧
    (sendTransactionRun envResolveFail defaultRecipient "0.1" =
        (failTrace Component.resolve, Outcome.failure "Account setup failed") ∧
      (failTrace Component.resolve).getLast? = some LifecycleEvent.failed ∧
      LifecycleEvent.confirmed ∉ failTrace Component.resolve ∧
      failTrace Component.feeOracle = failTrace Component.bundlerSubmit) :=
  ⟨rfl, failure_aborts_and_surfaced envResolveFail defaultRecipient "0.1"
    Component.resolve "Account setup failed" rfl⟩

/-- C9: the permit value signed by `signPermit` and encoded into the
paymaster payload is the fixed constant 10,000,000 (10 USDC at 6
decimals), independent of the user-entered amount; only the transfer
call's argument varies with the amount, parsed at 6 decimals. -/
theorem permit_value_constant (recipient : Nat) (amount amountOther : String)
    (permitSignature : List Nat) (token : TokenEnv) (chainId : Nat) (account : Account) :
    permitAmount = 10000000 ∧
    (signPermitRequest token chainId USDC_ADDRESS account PAYMASTER_V08_ADDRESS
        permitAmount).message.value = 10000000 ∧
    decodeAmount (assembleUserOp recipient amount permitSignature).paymasterData = 10000000 ∧
    (assembleUserOp recipient amount permitSignature).paymasterData =
      (assembleUserOp recipient amountOther permitSignature).paymasterData ∧
    (assembleUserOp recipient amount permitSignature).calls =
      [{ callTo := USDC_ADDRESS
         functionName := "transfer"
         args := (recipient, parseUnits amount 6) }] := by
  refine ⟨rfl, rfl, ?_, rfl, rfl⟩
  exact (decode_encodePackedPayload 0 USDC_ADDRESS 10000000 permitSignature
    (by norm_num) (by norm_num [USDC_ADDRESS]) (by norm_num)).2.2.1
